import Mathlib

/-!
Verification of the `get-style-props` build-time code generator
(`polaris-react/scripts/get-style-props/index.mjs`) and of the Toast
component's auto-dismiss timer (`Toast.tsx`).

The generator is a one-shot script: it derives configuration tables, runs
`verifyAliases()` (which prints errors and calls `process.exit(-1)` on
failure), and otherwise writes a style (SCSS) file and then a TypeScript
types file. We embed it as pure functions over an explicit input record
`GenInput` holding everything the script reads: the csstype longhand
property data extracted through the TypeScript compiler API
(`getCSSTypeLonghandProperties()`), the configuration tables imported from
`data.mjs` (`disallowedCSSProperties`, `stylePropConfig`, `modifiers`, …),
and the token metadata imported from `@shopify/polaris-tokens`. The file
system side effects of the script are embedded as an explicit event trace.

JavaScript objects built by the script (string keys, insertion order) are
embedded as insertion-ordered association lists with unique keys; `Set`s
as first-occurrence-deduplicated lists.
-/

namespace GetStyleProps

/-- JS `Array.from(new Set(l))`: deduplication keeping the first occurrence
of each element, in insertion order. -/
def jsSetOf {α : Type} [DecidableEq α] (l : List α) : List α :=
  l.foldl (fun acc x => if x ∈ acc then acc else acc ++ [x]) []

/-- JS object property read `obj[k]` over an insertion-ordered association
list: `none` plays the role of `undefined`. -/
def jsGet {α : Type} : List (String × α) → String → Option α
  | [], _ => none
  | e :: rest, k => if e.1 = k then some e.2 else jsGet rest k

/-- JS object property write `obj[k] = v`: replaces the binding in place
when the key exists, otherwise appends it (insertion order). -/
def jsSet {α : Type} : List (String × α) → String → α → List (String × α)
  | [], k, v => [(k, v)]
  | e :: rest, k, v => if e.1 = k then (k, v) :: rest else e :: jsSet rest k v

/-- JS `String.prototype.replace(pat, repl)` with a string pattern: only the
first occurrence is replaced (used for `key.replace('breakpoints-', '')`). -/
def jsReplaceFirst (s pat repl : String) : String :=
  match s.splitOn pat with
  | [] => s
  | [whole] => whole
  | first :: rest => first ++ repl ++ String.intercalate pat rest

/-- The `decamelize(str, '-')` library call as it acts on the lowerCamelCase
CSS property names fed to it: a '-' is inserted before each upper-case
letter, which is lowered. -/
def decamelize (s : String) : String :=
  String.join (s.toList.map (fun c =>
    if c.isUpper then "-" ++ String.singleton c.toLower else String.singleton c))

/-- JSON.stringify escaping for one character of a string value. -/
def jsonEscapeChar (c : Char) : String :=
  if c = '"' then "\\\""
  else if c = '\\' then "\\\\"
  else if c = '\n' then "\\n"
  else String.singleton c

/-- `JSON.stringify` of a string value. -/
def jsonStringifyString (s : String) : String :=
  "\"" ++ String.join (s.toList.map jsonEscapeChar) ++ "\""

/-- `JSON.stringify` of an array of strings (compact form, no spacing). -/
def jsonStringifyStringList (l : List String) : String :=
  "[" ++ String.intercalate "," (l.map jsonStringifyString) ++ "]"

/-- `JSON.stringify(l, null, 2)` of an array of strings: pretty-printed with
two-space indentation. -/
def jsonStringifyStringListPretty (l : List String) : String :=
  if l = [] then "[]"
  else "[\n  " ++ String.intercalate ",\n  " (l.map jsonStringifyString) ++ "\n]"

/-- `getArrayIntersection(...arrs)`: starts from the deduplicated union of
all the arrays, then for each array deletes the elements not in it. The
source iterates a JS `Set` while deleting the element under the cursor,
which visits each remaining element exactly once, i.e. acts as a filter. -/
def getArrayIntersection {α : Type} [DecidableEq α] (arrs : List (List α)) : List α :=
  let union := jsSetOf arrs.flatten
  arrs.foldl (fun intersection arr => intersection.filter (fun elem => decide (elem ∈ arr))) union

/-- `getArrayDifference(...arrs)`: the elements of the first array (as a
set) minus the elements of every other array. `arrs[0]` is `undefined` when
no array is given, and `new Set(undefined)` is empty, hence `headD []`. -/
def getArrayDifference {α : Type} [DecidableEq α] (arrs : List (List α)) : List α :=
  let union := jsSetOf (arrs.headD [])
  (arrs.drop 1).foldl (fun union arr => union.filter (fun elem => decide (elem ∉ arr))) union

/-- `arraysAreEqualSets(...arrs)`: every array after the first denotes the
same set as the first (sizes of the deduplicated sets equal, and every
element of the first set is in the other). -/
def arraysAreEqualSets {α : Type} [DecidableEq α] (arrs : List (List α)) : Bool :=
  let firstSet := jsSetOf (arrs.headD [])
  (arrs.drop 1).all (fun arr =>
    let thisSet := jsSetOf arr
    firstSet.length == thisSet.length && firstSet.all (fun elem => decide (elem ∈ thisSet)))

/-- One entry of `getCSSTypeLonghandProperties()`'s result: the JSDoc text
and the list of rendered union members of the property's csstype type. -/
structure PropInfo where
  jsDoc : String
  type : List String
deriving Repr, DecidableEq

/-- A JS scalar as it appears as a static `getDefault` value. -/
inductive JsScalar where
  | str (s : String)
  | num (n : Int)
deriving Repr, DecidableEq

/-- A `getDefault` field of a `stylePropConfig` entry: a static value, or a
function (carried as its `.toString()` source, which is all the generator
uses of it besides calling it — calls only happen for static values). -/
inductive GetDefault where
  | static (value : JsScalar)
  | dynamic (src : String)
deriving Repr, DecidableEq

/-- One value of the `stylePropConfig` table from `data.mjs`. -/
structure StylePropEntry where
  aliases : Option (List String)
  getDefault : Option GetDefault
deriving Repr, DecidableEq

instance : Inhabited StylePropEntry := ⟨⟨none, none⟩⟩

/-- A massaged breakpoint (`{key, value}` with the `breakpoints-` prefix
stripped from the key and the value converted to px). -/
structure Breakpoint where
  key : String
  value : String
deriving Repr, DecidableEq

/-- Everything the generator script reads: the csstype data extracted via
the TypeScript compiler, the configuration tables of `data.mjs`, and the
`@shopify/polaris-tokens` metadata. `boxValueMapper` is
`BoxValueMapperFactory` (a `data.mjs` function the script applies and
interpolates); `toPx` is the `@shopify/polaris-tokens` unit converter. -/
structure GenInput where
  cssLonghandProperties : List (String × PropInfo)
  disallowedCSSProperties : List String
  disallowedCSSPropertyValues : List String
  stylePropConfig : List (String × StylePropEntry)
  modifiers : List (String × String)
  cssCustomPropertyNamespace : String
  tokenizedCSSStyleProps : List (String × List String)
  metaThemeBreakpoints : List (String × String)
  styleFile : String
  typesFile : String
  boxValueMapper : List (String × String) → JsScalar → String → String
  boxValueMapperFactorySrc : String
  toPx : String → String

/-- The massaged breakpoints list: `Object.entries(metaThemeDefault.breakpoints)
.map(([key, breakpoint]) => ({key: key.replace('breakpoints-', ''), value:
toPx(breakpoint.value)}))`. -/
def breakpoints (inp : GenInput) : List Breakpoint :=
  inp.metaThemeBreakpoints.map (fun e =>
    { key := jsReplaceFirst e.1 "breakpoints-" "", value := inp.toPx e.2 })

/-- `allAliases`: the unique set of alias names appearing in any
`stylePropConfig` entry, in first-occurrence order. -/
def allAliases (stylePropConfig : List (String × StylePropEntry)) : List String :=
  jsSetOf ((stylePropConfig.map (fun e => e.2.aliases.getD [])).flatten)

/-- `inverseAliases`: for each entry `(prop, {aliases})` of `stylePropConfig`
and each alias in `aliases ?? []`, does `acc[alias] = acc[alias] ?? [];
acc[alias].push(prop)`. -/
def inverseAliases (stylePropConfig : List (String × StylePropEntry)) :
    List (String × List String) :=
  stylePropConfig.foldl
    (fun acc e =>
      (e.2.aliases.getD []).foldl
        (fun acc aliasName => jsSet acc aliasName ((jsGet acc aliasName).getD [] ++ [e.1]))
        acc)
    []

/-- `cssPropsToTokenGroup`: inverts `tokenizedCSSStyleProps` (token group ↦
props) into prop ↦ token group. -/
def cssPropsToTokenGroup (inp : GenInput) : List (String × String) :=
  inp.tokenizedCSSStyleProps.foldl
    (fun acc e => e.2.foldl (fun acc prop => jsSet acc prop e.1) acc)
    []

/-- `cssLonghandProperties[prop].type`, totalized with an empty record. In
the source this read throws a TypeError when the property is missing
(`cssLonghandProperties[prop]` is `undefined`); that crash is modeled
explicitly by `firstMissingAliasProp` and `VerifyResult.crashedTypeError`
at the first place the script performs such a read (the `forEach` of
`verifyAliases`), and on every path past that guard the property is
present, so the empty-record default is never exercised against the
source. -/
def cssLonghandPropertyType (inp : GenInput) (prop : String) : List String :=
  ((jsGet inp.cssLonghandProperties prop).getD { jsDoc := "", type := [] }).type

/-- `aliasCollisions` of `verifyAliases()`: csstype longhand properties that
are not disallowed and whose name equals some alias. -/
def aliasCollisions (inp : GenInput) : List String :=
  (inp.cssLonghandProperties.map Prod.fst).filter
    (fun longhandProperty =>
      !(inp.disallowedCSSProperties.contains longhandProperty)
        && (allAliases inp.stylePropConfig).contains longhandProperty)

/-- `typeMismatches` of `verifyAliases()`: aliases whose constituent
properties' type lists have an empty intersection, pushed in
`inverseAliases` order. -/
def typeMismatches (inp : GenInput) : List String :=
  (inverseAliases inp.stylePropConfig).foldl
    (fun acc e =>
      if (getArrayIntersection (e.2.map (fun prop => cssLonghandPropertyType inp prop))).length = 0
      then acc ++ [e.1]
      else acc)
    []

/-- The `console.error` text printed for alias collisions (whitespace as
`endent` dedents it). -/
def aliasCollisionMessage (inp : GenInput) : String :=
  "The following CSS properties collide with style prop aliases:\n\n"
    ++ String.intercalate ", " (aliasCollisions inp)
    ++ "\n\nAliases which happen to have the same name as a CSS property must be added to `disallowedCSSProperties[]` to ensure correct typings."

/-- The `console.error` text printed for alias type mismatches (whitespace
as `endent` dedents it). -/
def typeMismatchMessage (inp : GenInput) : String :=
  "Cannot use aliases as fallback; constituent CSS Properties do not have any overlap\n\n"
    ++ String.intercalate "\n\n"
        ((typeMismatches inp).map (fun aliasName =>
          "Alias `" ++ aliasName ++ "` is a fallback for:\n  "
            ++ String.intercalate "\n  "
                (((jsGet (inverseAliases inp.stylePropConfig) aliasName).getD []).map
                  (fun prop =>
                    prop ++ ": " ++ String.intercalate " | " (cssLonghandPropertyType inp prop)
                      ++ ";"))))

/-- The first property for which the `forEach` of `verifyAliases()` reads
`cssLonghandProperties[prop].type` with `cssLonghandProperties[prop]`
`undefined`: entries of `inverseAliases` in insertion order, and within
each entry its properties in order, exactly as `props.map(...)` visits
them. At this property the source throws an uncaught TypeError. -/
def firstMissingAliasProp (inp : GenInput) : Option String :=
  (((inverseAliases inp.stylePropConfig).map (fun e => e.2)).flatten).find?
    (fun prop => (jsGet inp.cssLonghandProperties prop).isNone)

/-- Outcome of `verifyAliases()`: an uncaught TypeError while reading the
type of a property missing from `cssLonghandProperties` (the process dies
with a stack trace and a nonzero status, not the curated message and not
`process.exit(-1)`); or the curated error messages followed by
`process.exit(-1)`; or a normal return. -/
inductive VerifyResult where
  | crashedTypeError (prop : String)
  | exitWith (code : Int) (printedErrors : List String)
  | ok
deriving Repr, DecidableEq

/-- `verifyAliases()`: `aliasCollisions` is computed without reading any
type; the `forEach` computing `typeMismatches` then throws at the first
missing property, before the `if (aliasCollisions.length ||
typeMismatches.length)` check and before anything is printed. Otherwise it
errors if and only if there is at least one alias collision or at least
one type mismatch, printing one message per nonempty list, then
`process.exit(-1)`. -/
def verifyAliases (inp : GenInput) : VerifyResult :=
  match firstMissingAliasProp inp with
  | some prop => VerifyResult.crashedTypeError prop
  | none =>
    if (aliasCollisions inp).length ≠ 0 ∨ (typeMismatches inp).length ≠ 0 then
      VerifyResult.exitWith (-1)
        ((if (aliasCollisions inp).length ≠ 0 then [aliasCollisionMessage inp] else [])
          ++ (if (typeMismatches inp).length ≠ 0 then [typeMismatchMessage inp] else []))
    else
      VerifyResult.ok

/-- `generateTSPickList(keys, indent)`: joins the keys with
`'\n' + ' '.repeat(indent) + '| '`. -/
def generateTSPickList (keys : List String) (indent : Nat) : String :=
  String.intercalate ("\n" ++ String.mk (List.replicate indent ' ') ++ "| ") keys

/-- `joinEnglish(arr)`: comma-separates all but the last element and joins
the last with " and ". -/
def joinEnglish (arr : List String) : String :=
  if arr.length = 1 then arr.headD ""
  else
    let joined := String.intercalate ", " arr.dropLast
    if arr.length < 2 then joined
    else joined ++ " and " ++ arr.getLastD ""

/-- `createMinimumCommonUnionForAlias(styleProps)`: a reference to the first
property's type when all the types are equal as sets; `never` when the
types have an empty intersection; otherwise an `Exclude<...>` over the first
property's type removing the members not shared by all. The `endent`
re-indentation of the interpolated pick list (whitespace only) is not
reproduced. -/
def createMinimumCommonUnionForAlias (inp : GenInput) (styleProps : List String) : String :=
  let types := styleProps.map (fun prop => cssLonghandPropertyType inp prop)
  if arraysAreEqualSets types then
    "LonghandStyleProps['" ++ styleProps.headD "" ++ "']"
  else
    let typeIntersection := getArrayIntersection types
    if typeIntersection.length = 0 then
      "never"
    else
      let symetricalDifference := getArrayDifference [types.flatten, typeIntersection]
      let typesToRemoveFromFirst := getArrayIntersection [types.headD [], symetricalDifference]
      "Exclude<\n    LonghandStyleProps['" ++ styleProps.headD "" ++ "'],\n    "
        ++ generateTSPickList typesToRemoveFromFirst 0 ++ "\n  >"

/-- `stylePropConfig[prop].aliases` (the entry exists for every property the
generator reads it for). -/
def stylePropConfigAliasesOf (inp : GenInput) (prop : String) : List String :=
  ((jsGet inp.stylePropConfig prop).getD default).aliases.getD []

/-- One member of the generated `StylePropAliases` interface: the doc
comment and the alias's optional property with its minimum common union
type. -/
def aliasInterfaceEntry (inp : GenInput) (aliasName : String) (styleProps : List String) :
    String :=
  "\n  /**\n   * Alias for setting "
    ++ joinEnglish (styleProps.map (fun prop => "`" ++ prop ++ "`"))
    ++ ":\n   *\n   * ```\n   * "
    ++ String.intercalate "\n   * "
        (styleProps.map (fun prop =>
          prop ++ " = props." ++ prop ++ " ?? "
            ++ String.intercalate " ?? "
                ((stylePropConfigAliasesOf inp prop).map (fun fallbackProp =>
                  "props." ++ fallbackProp))
            ++ ";"))
    ++ "\n   * ```\n   *\n   * "
    ++ String.intercalate "\n   * "
        (styleProps.map (fun prop => "@see \x7b@link LonghandStyleProps." ++ prop ++ "\x7d"))
    ++ "\n   */\n  "
    ++ aliasName ++ "?: " ++ createMinimumCommonUnionForAlias inp styleProps ++ ";"

/-- The quoted names filling `DisallowedStandardLonghandProperties`:
disallowed properties and aliases that actually are csstype longhand
properties. -/
def disallowedStandardLonghandPropertiesList (inp : GenInput) : List String :=
  ((inp.disallowedCSSProperties ++ allAliases inp.stylePropConfig).filter
      (fun prop => (jsGet inp.cssLonghandProperties prop).isSome)).map
    (fun prop => "'" ++ prop ++ "'")

/-- The generated `stylePropAliasFallbacks` entries: one per config entry
with a nonempty alias list. -/
def stylePropAliasFallbacksEntries (inp : GenInput) : List String :=
  (inp.stylePropConfig.filter (fun e => (e.2.aliases.getD []).length != 0)).map
    (fun e => e.1 ++ ": " ++ jsonStringifyStringList (e.2.aliases.getD []) ++ ",")

/-- `JSON.stringify` of a static default value. -/
def jsonStringifyScalar : JsScalar → String
  | JsScalar.str s => jsonStringifyString s
  | JsScalar.num n => toString n

/-- What the generator interpolates for a `getDefault`: the function source
for a function, `JSON.stringify` for a static value. -/
def getDefaultToString : GetDefault → String
  | GetDefault.dynamic src => src
  | GetDefault.static v => jsonStringifyScalar v

/-- The generated `stylePropDefaults` entries: one per config entry with a
defined `getDefault`. -/
def stylePropDefaultsEntries (inp : GenInput) : List String :=
  inp.stylePropConfig.filterMap (fun e =>
    e.2.getDefault.map (fun d => e.1 ++ ": " ++ getDefaultToString d ++ ","))

/-- The longhand section of the generated `stylePropTokenGroupMap`:
tokenized properties that are csstype longhands and not aliases. -/
def stylePropTokenGroupMapLonghandEntries (inp : GenInput) : List String :=
  ((cssPropsToTokenGroup inp).filter (fun e =>
      (jsGet inp.cssLonghandProperties e.1).isSome
        && !((allAliases inp.stylePropConfig).contains e.1))).map
    (fun e => e.1 ++ ": " ++ jsonStringifyString e.2)

/-- The alias section of the generated `stylePropTokenGroupMap`: aliases
whose first constituent property is tokenized, mapped to that property's
token group. -/
def stylePropTokenGroupMapAliasEntries (inp : GenInput) : List String :=
  ((inverseAliases inp.stylePropConfig).filter (fun e =>
      (jsGet (cssPropsToTokenGroup inp) (e.2.headD "")).isSome)).map
    (fun e =>
      e.1 ++ ": "
        ++ jsonStringifyString ((jsGet (cssPropsToTokenGroup inp) (e.2.headD "")).getD ""))

/-- Fixed text of the generated types file, from the start of the template
literal up to the `joinEnglish(Object.values(modifiersData))` splice. -/
def tsTemplateHead : String :=
  "/* THIS FILE IS AUTO GENERATED, DO NOT TOUCH */\n"
    ++ "import type \x7bStandardLonghandProperties, Globals\x7d from 'csstype';\n"
    ++ "import type \x7bbreakpointsAliases,BreakpointsAlias,TokenizedStyleProps\x7d from '@shopify/polaris-tokens';\n"
    ++ "import type \x7bPickIndexSignature, OmitIndexSignature, Simplify\x7d  from 'type-fest';\n"
    ++ "\n"
    ++ "import type \x7bResponsiveProp, ResponsivePropObject\x7d from '../../utilities/css';\n"
    ++ "\n"
    ++ "/**\n"
    ++ " * Pick only the keys in `PickFrom` which are also in `IntersectWith`.\n"
    ++ " */\n"
    ++ "type PickIntersection<PickFrom, IntersectWith> = Pick<\n"
    ++ "  PickFrom,\n"
    ++ "  keyof IntersectWith & keyof PickFrom\n"
    ++ ">;\n"
    ++ "\n"
    ++ "// Force Typescript to flatten out a union type to its concrete values\n"
    ++ "type WrapInObject<T> = T extends unknown ? \x7b key: T \x7d : never;\n"
    ++ "type Unwrap<T> = T extends \x7b key: unknown \x7d ? T[\"key\"] : never;\n"
    ++ "\n"
    ++ "/**\n"
    ++ " * The subset of all CSS that we support in Polaris (does not include aliases).\n"
    ++ " */\n"
    ++ "type SupportedCSSStyleProps = Omit<\n"
    ++ "  // Why Longhand properties and not ALL properties?\n"
    ++ "  // Shorthand properties need to come before longhand properties so\n"
    ++ "  // the most specific (longhand) applies based on CSS order.\n"
    ++ "  // For example, `flex-flow` is a shorthand of `<flex-direction> <flex-wrap>`,\n"
    ++ "  // and so must come before both of those.\n"
    ++ "  //\n"
    ++ "  // Challenges with supporting shorthand properties:\n"
    ++ "  // a. Cannot use alphabetical sorting (`flex-direction` would end up before\n"
    ++ "  // `flex-flow` which is invalid).\n"
    ++ "  // b. Cannot use `property.logicalProperyGroup` from `@webref/css` as that's\n"
    ++ "  // not reliable (doesn't even exist for the `flex` family of properties).\n"
    ++ "  // c. Cannot rely on the order of properties in an @webref/css specification\n"
    ++ "  // containing both long and shorthand variants since later \"Delta\" specs might\n"
    ++ "  // introduce new shorthands (and so would come after the longhand when\n"
    ++ "  // iterating and therefore are invalid).\n"
    ++ "  // d. mdn data appears to have an incomplete list of shorthand properties.\n"
    ++ "  //\n"
    ++ "  // Possible solutions:\n"
    ++ "  // 1. Use data like \x7b 'flex-flow': ['flex-direction', 'flex-wrap'] \x7d to sort\n"
    ++ "  //    longhands after shorthands\n"
    ++ "  // 2. Rely on csstype to filter out all the shorthand properties completely.\n"
    ++ "  //\n"
    ++ "  // We're chosing solution #2 here; filtering out shorthand CSS Properties.\n"
    ++ "  // Note that in a later step where we create \"aliases\" to enable a builder to\n"
    ++ "  // pass a single value which acts as a fallback for the props specified as\n"
    ++ "  // fallbacks. Some of these aliases may have identical names to the shorthand\n"
    ++ "  // properties, but shouldn't be confused as being the same.\n"
    ++ "  StandardLonghandProperties,\n"
    ++ "  DisallowedStandardLonghandProperties\n"
    ++ ">;\n"
    ++ "\n"
    ++ "type SimpleMergeByUnion<Destination, Source> = \x7b\n"
    ++ "  // Grab everything that's in Destination, but not in Source\n"
    ++ "  [Key in keyof Destination as Key extends keyof Source ? never : Key]: Destination[Key]\n"
    ++ "\x7d & \x7b\n"
    ++ "  // Grab everything that's in Source, but not in Destination\n"
    ++ "  [Key in keyof Source as Key extends keyof Destination ? never : Key]: Source[Key]\n"
    ++ "\x7d & \x7b\n"
    ++ "  // Union everything that's in both Source and Destination\n"
    ++ "  // Doing 'as' here ensures we never end up with a property with type 'never'\n"
    ++ "  [Key in keyof Destination as Key extends keyof Source ? Key : never]:\n"
    ++ "    Key extends keyof Source\n"
    ++ "      ? Destination[Key] | Source[Key]\n"
    ++ "      // This should never happen thanks to our 'as' above, but is needed to\n"
    ++ "      // satisfy the indexing of 'Source'.\n"
    ++ "      : never;\n"
    ++ "\x7d;\n"
    ++ "\n"
    ++ "// Splitting out index signatures ensures Typescript doesn't incorrectly narrow\n"
    ++ "// down to just the index signatures themselves, wiping out the more specific\n"
    ++ "// signatures which we want to keep.\n"
    ++ "type MergeByUnion<Destination, Source> =\n"
    ++ "  SimpleMergeByUnion<PickIndexSignature<Destination>, PickIndexSignature<Source>>\n"
    ++ "  & SimpleMergeByUnion<OmitIndexSignature<Destination>, OmitIndexSignature<Source>>;\n"
    ++ "\n"
    ++ "/**\n"
    ++ " * Some of our supported CSS properties must have a value from\n"
    ++ " * `@shopify/polaris-tokens`, so we override those properties here\n"
    ++ " *\n"
    ++ " * @example\n"
    ++ " * `padding-inline-start` can only accept the `space-*` tokens.\n"
    ++ " */\n"
    ++ "type LonghandStyleProps = MergeByUnion<\n"
    ++ "  SupportedCSSStyleProps,\n"
    ++ "  // `@shopify/polaris-tokens` may type more CSS properties than we want to\n"
    ++ "  // support here, so ensure we're only picking the ones we explicityly support\n"
    ++ "  PickIntersection<TokenizedStyleProps, SupportedCSSStyleProps>\n"
    ++ ">;\n"
    ++ "\n"
    ++ "type StyleProps = LonghandStyleProps & StylePropAliases;\n"
    ++ "\n"
    ++ "/**\n"
    ++ " * A combination of raw CSS style props, tokenized style props (derived from\n"
    ++ " * `@shopify/polaris-tokens`), and helpful aliases for frequently used props.\n"
    ++ " */\n"
    ++ "export type ResponsiveStyleProps = \x7b\n"
    ++ "  [K in keyof StyleProps]?: ResponsiveProp<\n"
    ++ "    // Excluding globally disallowed values as the last thing we do ensures none\n"
    ++ "    // slip through the cracks in the above type definitions.\n"
    ++ "    Unwrap<WrapInObject<Exclude<StyleProps[K], (typeof disallowedCSSPropertyValues)[number]>>>\n"
    ++ "  >;\n"
    ++ "\x7d;\n"
    ++ "\n"
    ++ "/**\n"
    ++ " * A combination of raw CSS style props, tokenized style props (derived from\n"
    ++ " * `@shopify/polaris-tokens`), helpful aliases for frequently used props, and\n"
    ++ "* the modifiers "

/-- Fixed text of the generated types file, between the modifiers doc
splice and the `StylePropAliases` interface members splice. -/
def tsTemplateAliasDoc : String :=
  ".\n"
    ++ " */\n"
    ++ "export type ResponsiveStylePropsWithModifiers = Simplify<\n"
    ++ "  ResponsiveStyleProps & \x7b\n"
    ++ "    [K in typeof modifiers[number]]?: ResponsiveStyleProps;\n"
    ++ "  \x7d\n"
    ++ ">;\n"
    ++ "\n"
    ++ "export type ResponsiveStylePropObjects = \x7b\n"
    ++ "  [T in keyof ResponsiveStyleProps]?: ResponsiveStyleProps[T] extends ResponsiveProp<\n"
    ++ "    infer V\n"
    ++ "  >\n"
    ++ "    ? ResponsivePropObject<V>\n"
    ++ "    : never;\n"
    ++ "\x7d;\n"
    ++ "\n"
    ++ "/**\n"
    ++ "* Polaris specifies some aliases which are used as fallback values when an\n"
    ++ "* explicit style prop isn't set. Aliases may themselves fallback to other\n"
    ++ "* aliases. Some aliases may be tokenized values or CSS values, but never both.\n"
    ++ "*\n"
    ++ " * @example\n"
    ++ " * `justify` is an alias to `justifyItems` when `justifyItems` isn't set.\n"
    ++ "*\n"
    ++ "* <Box justify=\"center\" />\n"
    ++ "* =>\n"
    ++ "* style=\x7b\x7b justifyItems: 'center' \x7d\x7d\n"
    ++ "*\n"
    ++ "* <Box justifyItems=\"left\" justify=\"center\" />\n"
    ++ "* =>\n"
    ++ "* style=\x7b\x7b justifyItems: 'left' \x7d\x7d\n"
    ++ "*\n"
    ++ "* @example\n"
    ++ "* `paddingInline` is an alias to `paddingInlineStart` and\n"
    ++ "* `paddingInlineEnd` when they aren't set.\n"
    ++ "*\n"
    ++ "* <Box paddingInline=\"space-400\" />\n"
    ++ "* =>\n"
    ++ "* style=\x7b\x7b\n"
    ++ "*   paddingInlineStart: '400',\n"
    ++ "*   paddingInlineEnd: '400',\n"
    ++ "* \x7d\x7d\n"
    ++ "*\n"
    ++ "* <Box paddingInline=\"space-400\" paddingInlineEnd=\"space-600\" />\n"
    ++ "* =>\n"
    ++ "* style=\x7b\x7b\n"
    ++ "*   paddingInlineStart: '400',\n"
    ++ "*   paddingInlineEnd: '600',\n"
    ++ "* \x7d\x7d\n"
    ++ "*\n"
    ++ "* @example\n"
    ++ "* `padding` is an alias to `paddingInline` and `paddingBlock` which themselves\n"
    ++ "* are aliases to `paddingInlineStart`, `paddingInlineEnd` and\n"
    ++ "* `paddingBlockStart`, `paddingBlockEnd` respectively.\n"
    ++ "*\n"
    ++ "* <Box padding=\"space-400\" />\n"
    ++ "* => style=\x7b\x7b\n"
    ++ "*   paddingInlineStart: '400',\n"
    ++ "*   paddingInlineEnd: '400',\n"
    ++ "*   paddingBlockStart: '400',\n"
    ++ "*   paddingBlockEnd: '400',\n"
    ++ "* \x7d\x7d\n"
    ++ "*\n"
    ++ "* <Box paddingBlock=\"space-800\" padding=\"space-400\" paddingInlineEnd=\"space-600\" />\n"
    ++ "* => style=\x7b\x7b\n"
    ++ "*   paddingInlineStart: '400',\n"
    ++ "*   paddingInlineEnd: '600',\n"
    ++ "*   paddingBlockStart: '800',\n"
    ++ "*   paddingBlockEnd: '800',\n"
    ++ "* \x7d\x7d\n"
    ++ "*/\n"
    ++ "interface StylePropAliases \x7b"

/-- Fixed text of the generated types file, between the interface members
splice and the `DisallowedStandardLonghandProperties` pick list splice. -/
def tsTemplateDisallowedDoc : String :=
  "\n\x7d;\n"
    ++ "\n"
    ++ "/**\n"
    ++ " * CSS properties we don't support.\n"
    ++ " *\n"
    ++ " * Note: Some 'disallowed' properties happen to share a name with allowed\n"
    ++ " * aliases (eg; `paddingInline` is an alias for `paddingInlineStart` and\n"
    ++ " * `paddingInlineEnd`), so they appear in the list below, but are later\n"
    ++ " * included in the final `StyleProps` type.\n"
    ++ " */\n"
    ++ "type DisallowedStandardLonghandProperties = "

/-- Fixed text of the generated types file, between the pick list splice
and the `stylePropAliasFallbacks` entries splice. -/
def tsTemplateFallbacksDoc : String :=
  ";\n"
    ++ "\n"
    ++ "/**\n"
    ++ " * Props which act as an alias to one or more more specific props.\n"
    ++ " *\n"
    ++ " * For example; 'padding' is an alias to 'padding-inline-start',\n"
    ++ " * 'padding-inline-end', etc, when those individual props aren't set.\n"
    ++ " */\n"
    ++ "export const stylePropAliasFallbacks = \x7b\n"
    ++ "  "

/-- Fixed text of the generated types file, between the fallback entries
splice and the `stylePropDefaults` entries splice. -/
def tsTemplateDefaultsDoc : String :=
  "\n\x7d satisfies \x7b [K in keyof SupportedCSSStyleProps]?: (keyof StyleProps)[] \x7d;\n"
    ++ "\n"
    ++ "// Extract a unique set of just the alias names\n"
    ++ "export const stylePropAliasNames: (keyof StyleProps)[] = Array.from(\n"
    ++ "  new Set(Object.values(stylePropAliasFallbacks).flat())\n"
    ++ ");\n"
    ++ "\n"
    ++ "type StaticDefaultValue<K extends keyof SupportedCSSStyleProps> =\n"
    ++ "  | SupportedCSSStyleProps[K]\n"
    ++ "  | undefined;\n"
    ++ "\n"
    ++ "type DynamicDefaultValue<K extends keyof SupportedCSSStyleProps> = (\n"
    ++ "  props: ResponsiveStylePropObjects\n"
    ++ ") => SupportedCSSStyleProps[K] | undefined;\n"
    ++ "\n"
    ++ "export type PropDefaults = \x7b\n"
    ++ "  [K in keyof SupportedCSSStyleProps]?:\n"
    ++ "    | StaticDefaultValue<K>\n"
    ++ "    | DynamicDefaultValue<K>;\n"
    ++ "\x7d;\n"
    ++ "\n"
    ++ "export const stylePropDefaults = \x7b\n"
    ++ "  "

/-- Fixed text of the generated types file, between the defaults entries
splice and the `disallowedCSSPropertyValues` JSON splice. -/
def tsTemplateDisallowedValuesDoc : String :=
  "\n\x7d satisfies PropDefaults;\n"
    ++ "\n"
    ++ "/**\n"
    ++ " * A list of values that if passed to any styleProp on our Box component should\n"
    ++ " * warn the user, and bail early from the css property injection procedure. We\n"
    ++ " * do this as there is no good way for us to explicitly disallow this string\n"
    ++ " * literal in our types holistically for every style property.\n"
    ++ " */\n"
    ++ "export const disallowedCSSPropertyValues = "

/-- Fixed text of the generated types file, between the JSON splice and the
longhand token group entries splice. -/
def tsTemplateTokenGroupDoc : String :=
  " satisfies Globals[];\n"
    ++ "\n"
    ++ "/**\n"
    ++ " * Style props which only accept tokens need to be assigned to a token group.\n"
    ++ " */\n"
    ++ "export const stylePropTokenGroupMap = \x7b\n"
    ++ "  // Longhand CSS Style Props\n"
    ++ "  "

/-- Fixed text of the generated types file, from the end of the token group
map through the `valueMapperFactory` splice. -/
def tsTemplateTail : String :=
  ",\n\x7d as const;\n"
    ++ "\n"
    ++ "export const cssCustomPropertyNamespace = "

/-- Fixed text after the namespace JSON splice, up to the modifiers JSON
splice. -/
def tsTemplateModifiersConst : String :=
  ";\n"
    ++ "\n"
    ++ "export const modifiers = "

/-- Fixed text after the modifiers JSON splice, up to the
`BoxValueMapperFactory.toString()` splice. -/
def tsTemplateValueMapper : String :=
  " as const;\n"
    ++ "\n"
    ++ "export const baseStylePropsModifierKey = '' as const;\n"
    ++ "type BaseStylePropsModifierKey = typeof baseStylePropsModifierKey;\n"
    ++ "\n"
    ++ "export const baseStylePropsBreakpointKey = '' as const;\n"
    ++ "type BaseStylePropsBreakpointKey = typeof baseStylePropsBreakpointKey;\n"
    ++ "\n"
    ++ "export type BreakpointsAliasesWithBaseKey =\n"
    ++ "  | BaseStylePropsBreakpointKey\n"
    ++ "  | Exclude<BreakpointsAlias, (typeof breakpointsAliases)[0]>;\n"
    ++ "\n"
    ++ "// The \"base\" styles always come last after other modifiers\n"
    ++ "export const allModifiers: ((typeof modifiers)[number] | BaseStylePropsModifierKey)[] =\n"
    ++ "  [...modifiers, baseStylePropsModifierKey];\n"
    ++ "\n"
    ++ "export type ValueMapperFactory = (map: typeof stylePropTokenGroupMap) => (\n"
    ++ "  value: ResponsiveStyleProps[typeof prop],\n"
    ++ "  prop: keyof typeof stylePropTokenGroupMap,\n"
    ++ "  breakpoint: BreakpointsAlias,\n"
    ++ "  modifier: (typeof allModifiers)[number],\n"
    ++ ") => unknown;\n"
    ++ "export const valueMapperFactory: ValueMapperFactory= "

/-- `writeTSProperties(tsFile)`: the full text written to the types file —
the fixed template with the computed splices filled in. -/
def writeTSProperties (inp : GenInput) : String :=
  tsTemplateHead
    ++ joinEnglish (inp.modifiers.map Prod.snd)
    ++ tsTemplateAliasDoc
    ++ String.intercalate "\n"
        ((inverseAliases inp.stylePropConfig).map (fun e =>
          aliasInterfaceEntry inp e.1 e.2))
    ++ tsTemplateDisallowedDoc
    ++ generateTSPickList (disallowedStandardLonghandPropertiesList inp) 2
    ++ tsTemplateFallbacksDoc
    ++ String.intercalate "\n  " (stylePropAliasFallbacksEntries inp)
    ++ tsTemplateDefaultsDoc
    ++ String.intercalate "\n  " (stylePropDefaultsEntries inp)
    ++ tsTemplateDisallowedValuesDoc
    ++ jsonStringifyStringListPretty inp.disallowedCSSPropertyValues
    ++ tsTemplateTokenGroupDoc
    ++ String.intercalate ",\n  " (stylePropTokenGroupMapLonghandEntries inp)
    ++ ",\n\n  // Aliases\n  "
    ++ String.intercalate ",\n  " (stylePropTokenGroupMapAliasEntries inp)
    ++ tsTemplateTail
    ++ jsonStringifyString inp.cssCustomPropertyNamespace
    ++ tsTemplateModifiersConst
    ++ jsonStringifyStringList (inp.modifiers.map Prod.snd)
    ++ tsTemplateValueMapper
    ++ inp.boxValueMapperFactorySrc
    ++ ";\n"

/-- `breakpointsWithoutXs`: `breakpoints.slice(1)` — every breakpoint but
the first. -/
def breakpointsWithoutXs (inp : GenInput) : List Breakpoint :=
  (breakpoints inp).drop 1

/-- `baseBreakpointKey`: the unnamed base key (the empty string). -/
def baseBreakpointKey : String := ""

/-- `breakpointsWithBaseXs`: the first breakpoint with its key replaced by
the base key, followed by the rest. -/
def breakpointsWithBaseXs (inp : GenInput) : List Breakpoint :=
  { (breakpoints inp).headD { key := "", value := "" } with key := baseBreakpointKey }
    :: breakpointsWithoutXs inp

/-- The non-`xs` lines of the `defaults` block: each non-first breakpoint's
custom property set to `initial`. -/
def mediaVarInitialLines (inp : GenInput) : List String :=
  (breakpointsWithoutXs inp).map (fun bp =>
    "--" ++ inp.cssCustomPropertyNamespace ++ bp.key ++ ": initial;")

/-- For one modifier, the `defaults` lines: each breakpoint key (including
the base key) suffixed with the modifier name, set to `initial`. -/
def modifierInitialLines (inp : GenInput) (modifierName : String) : List String :=
  (breakpointsWithBaseXs inp).map (fun bp =>
    "--" ++ inp.cssCustomPropertyNamespace ++ bp.key ++ modifierName ++ ": initial;")

/-- The `defaults` string of `writeCSSMediaVars` (whitespace as `endent`
dedents it). -/
def cssMediaVarDefaults (inp : GenInput) (modifiers : List (String × String)) : String :=
  String.intercalate "\n" (mediaVarInitialLines inp)
    ++ "\n\n"
    ++ String.intercalate "\n\n"
        (modifiers.map (fun m => String.intercalate "\n" (modifierInitialLines inp m.2)))

/-- The `@media` rules: one per non-first breakpoint, setting the
breakpoint's custom property to a space inside a `.Box` rule. -/
def mediaQueryRules (inp : GenInput) : List String :=
  (breakpointsWithoutXs inp).map (fun bp =>
    "@media screen and (min-width: " ++ bp.value ++ ") \x7b .Box \x7b --"
      ++ inp.cssCustomPropertyNamespace ++ bp.key ++ ": ; \x7d \x7d")

/-- `mediaQueries`: the `@media` rules joined with newlines. -/
def mediaQueries (inp : GenInput) : String :=
  String.intercalate "\n" (mediaQueryRules inp)

/-- The token group map handed to `BoxValueMapperFactory` for the default
CSS properties: `cssPropsToTokenGroup` restricted to csstype longhands that
are not aliases. -/
def tokenGroupMapForBox (inp : GenInput) : List (String × String) :=
  (cssPropsToTokenGroup inp).filter (fun e =>
    (jsGet inp.cssLonghandProperties e.1).isSome
      && !((allAliases inp.stylePropConfig).contains e.1))

/-- `defaultCSSProperties`: one declaration per config entry whose
`getDefault` is a static (non-function) value, kebab-cased and mapped
through `BoxValueMapperFactory`. -/
def defaultCSSProperties (inp : GenInput) : String :=
  String.join
    ((inp.stylePropConfig.filterMap (fun e =>
        match e.2.getDefault with
        | some (GetDefault.static v) => some (e.1, v)
        | _ => none)).map
      (fun pv =>
        decamelize pv.1 ++ ": "
          ++ inp.boxValueMapper (tokenGroupMapForBox inp) pv.2 pv.1 ++ ";\n"))

/-- For one modifier, the lines of its `.Box<selector>` rule: each
breakpoint key (including the base key) suffixed with the modifier name,
set to the empty value for the base key and to `var(--<ns><key>)`
otherwise. -/
def modifierSelectorLines (inp : GenInput) (modifierName : String) : List String :=
  (breakpointsWithBaseXs inp).map (fun bp =>
    "--" ++ inp.cssCustomPropertyNamespace ++ bp.key ++ modifierName ++ ": "
      ++ (if bp.key = baseBreakpointKey then ""
          else "var(--" ++ inp.cssCustomPropertyNamespace ++ bp.key ++ ")")
      ++ ";")

/-- One `.Box<selector>` rule of `selectorsEnabled` (inner `endent`
indentation elided, whitespace only). -/
def modifierSelectorRule (inp : GenInput) (m : String × String) : String :=
  ".Box" ++ m.1 ++ " \x7b\n"
    ++ String.intercalate "\n" (modifierSelectorLines inp m.2)
    ++ "\n\x7d"

/-- `selectorsEnabled`: the modifier rules joined with blank lines. -/
def selectorsEnabled (inp : GenInput) (modifiers : List (String × String)) : String :=
  String.intercalate "\n\n" (modifiers.map (fun m => modifierSelectorRule inp m))

/-- `writeCSSMediaVars(file, modifiers)`: the full text written to the
style file (top-level `endent` indentation elided, whitespace only). -/
def writeCSSMediaVars (inp : GenInput) (modifiers : List (String × String)) : String :=
  "/* THIS FILE IS AUTO GENERATED, DO NOT TOUCH */\n"
    ++ ".Box \x7b\n"
    ++ defaultCSSProperties inp
    ++ "\n"
    ++ cssMediaVarDefaults inp modifiers
    ++ "\n\x7d\n\n"
    ++ mediaQueries inp
    ++ "\n\n"
    ++ selectorsEnabled inp modifiers

/-- A file system action of the script, as an explicit trace event. -/
inductive FsEvent where
  | openFile (path : String)
  | writeContent (path : String) (content : String)
  | closeFile (path : String)
deriving Repr, DecidableEq

/-- How the one-shot script ends: dead on the uncaught TypeError of a
missing-property read, `process.exit(code)` after printing the curated
error messages, or normal completion. -/
inductive ScriptOutcome where
  | crashed (prop : String)
  | exited (code : Int) (printedErrors : List String)
  | completed
deriving Repr, DecidableEq

/-- The top-level script: run `verifyAliases()`; on the TypeError crash or
the error exit nothing is opened or written; on success open the style
file, write the CSS media vars, close it, then open the types file, write
the TS properties, close it. -/
def runScript (inp : GenInput) : ScriptOutcome × List FsEvent :=
  match verifyAliases inp with
  | VerifyResult.crashedTypeError prop => (ScriptOutcome.crashed prop, [])
  | VerifyResult.exitWith code errs => (ScriptOutcome.exited code errs, [])
  | VerifyResult.ok =>
    (ScriptOutcome.completed,
      [FsEvent.openFile inp.styleFile,
       FsEvent.writeContent inp.styleFile (writeCSSMediaVars inp inp.modifiers),
       FsEvent.closeFile inp.styleFile,
       FsEvent.openFile inp.typesFile,
       FsEvent.writeContent inp.typesFile (writeTSProperties inp),
       FsEvent.closeFile inp.typesFile])

/-- Reading `inverseAliases[a]` as the script does right after building it:
a missing key would be `undefined`, read as the empty list for the purposes
of membership statements. -/
def invLookup (m : List (String × List String)) (a : String) : List String :=
  (jsGet m a).getD []

/-- The success-path trace, for stating the success theorems. -/
def successTrace (inp : GenInput) : List FsEvent :=
  [FsEvent.openFile inp.styleFile,
   FsEvent.writeContent inp.styleFile (writeCSSMediaVars inp inp.modifiers),
   FsEvent.closeFile inp.styleFile,
   FsEvent.openFile inp.typesFile,
   FsEvent.writeContent inp.typesFile (writeTSProperties inp),
   FsEvent.closeFile inp.typesFile]

end GetStyleProps

namespace Toast

/-- `DEFAULT_TOAST_DURATION` (ms). -/
def DEFAULT_TOAST_DURATION : Nat := 5000

/-- `DEFAULT_TOAST_DURATION_WITH_ACTION` (ms). -/
def DEFAULT_TOAST_DURATION_WITH_ACTION : Nat := 10000

/-- JS truthiness of the optional `duration` prop (`undefined` and `0` are
falsy). -/
def durationTruthy : Option Nat → Bool
  | none => false
  | some n => n != 0

/-- What the Toast effect decides: the timeout passed to `setTimeout`, and
whether the persistence warning is logged. -/
structure ToastTimerBehavior where
  timeoutDuration : Nat
  warned : Bool
deriving Repr, DecidableEq

/-- The body of the Toast `useEffect`:
`let timeoutDuration = duration || DEFAULT_TOAST_DURATION;` then
`if (action && !duration) timeoutDuration = DEFAULT_TOAST_DURATION_WITH_ACTION;`
`else if (action && duration && duration < DEFAULT_TOAST_DURATION_WITH_ACTION)`
log the warning. -/
def toastTimer (action : Bool) (duration : Option Nat) : ToastTimerBehavior :=
  let timeoutDuration :=
    if durationTruthy duration then duration.getD 0 else DEFAULT_TOAST_DURATION
  if action && !durationTruthy duration then
    { timeoutDuration := DEFAULT_TOAST_DURATION_WITH_ACTION, warned := false }
  else if action && durationTruthy duration
      && decide (duration.getD 0 < DEFAULT_TOAST_DURATION_WITH_ACTION) then
    { timeoutDuration := timeoutDuration, warned := true }
  else
    { timeoutDuration := timeoutDuration, warned := false }

end Toast

namespace GetStyleProps

/-- A small concrete generator input used to instantiate the theorems with
hypotheses: two gap properties aliased to `gap` (which is a disallowed CSS
property, as the real configuration requires), one property with a static
default, two modifiers and three breakpoints. -/
def sampleInput : GenInput :=
  { cssLonghandProperties :=
      [("rowGap", { jsDoc := "", type := ["string", "'normal'"] }),
       ("columnGap", { jsDoc := "", type := ["string", "'normal'"] }),
       ("accentColor", { jsDoc := "", type := ["Color", "'auto'"] }),
       ("gap", { jsDoc := "", type := ["string"] })],
    disallowedCSSProperties := ["gap"],
    disallowedCSSPropertyValues := ["-moz-initial", "inherit"],
    stylePropConfig :=
      [("rowGap", { aliases := some ["gap"], getDefault := none }),
       ("columnGap",
        { aliases := some ["gap"],
          getDefault := some (GetDefault.static (JsScalar.str "space-100")) }),
       ("accentColor", { aliases := none, getDefault := none })],
    modifiers := [(":hover", "_hover"), (":active", "_active")],
    cssCustomPropertyNamespace := "_p-media-",
    tokenizedCSSStyleProps := [("space", ["rowGap", "columnGap", "gap"])],
    metaThemeBreakpoints :=
      [("breakpoints-xs", "0rem"), ("breakpoints-sm", "30.625rem"), ("breakpoints-md", "48rem")],
    styleFile := "style.scss",
    typesFile := "types.ts",
    boxValueMapper := fun _ v prop =>
      (match v with
       | JsScalar.str s => "var(--p-" ++ s ++ ")"
       | JsScalar.num n => toString n) ++ "-" ++ prop,
    boxValueMapperFactorySrc := "(map) => (value, prop) => value",
    toPx := fun s => s }

/-- The sample input with a typo'd `stylePropConfig` key: `rowGpa` is not a
csstype longhand property, so `verifyAliases` reads
`cssLonghandProperties['rowGpa'].type` of `undefined` and the script dies
on an uncaught TypeError — exactly the class of mistake the verification
step exists to catch, and a failure path distinct from the curated
`process.exit(-1)`. -/
def crashInput : GenInput :=
  { sampleInput with
    stylePropConfig :=
      [("rowGpa", { aliases := some ["gap"], getDefault := none })] }

end GetStyleProps

namespace GetStyleProps

theorem mem_jsSetOf_loop {α : Type} [DecidableEq α] (l : List α) :
    ∀ (acc : List α) (x : α),
      x ∈ l.foldl (fun acc y => if y ∈ acc then acc else acc ++ [y]) acc
        ↔ x ∈ acc ∨ x ∈ l := by
  induction l with
  | nil => intro acc x; simp
  | cons y ys ih =>
    intro acc x
    rw [List.foldl_cons, ih]
    by_cases hy : y ∈ acc
    · rw [if_pos hy]
      simp only [List.mem_cons]
      constructor
      · rintro (h | h)
        · exact Or.inl h
        · exact Or.inr (Or.inr h)
      · rintro (h | rfl | h)
        · exact Or.inl h
        · exact Or.inl hy
        · exact Or.inr h
    · rw [if_neg hy]
      simp only [List.mem_append, List.mem_singleton, List.mem_cons]
      tauto

theorem nodup_jsSetOf_loop {α : Type} [DecidableEq α] (l : List α) :
    ∀ acc : List α, acc.Nodup →
      (l.foldl (fun acc y => if y ∈ acc then acc else acc ++ [y]) acc).Nodup := by
  induction l with
  | nil => intro acc h; simpa using h
  | cons y ys ih =>
    intro acc h
    rw [List.foldl_cons]
    by_cases hy : y ∈ acc
    · rw [if_pos hy]; exact ih acc h
    · rw [if_neg hy]
      exact ih _ (by simp [List.nodup_append, h, List.disjoint_singleton, hy])

theorem mem_jsSetOf {α : Type} [DecidableEq α] (l : List α) (x : α) :
    x ∈ jsSetOf l ↔ x ∈ l := by
  rw [jsSetOf, mem_jsSetOf_loop]
  simp

theorem nodup_jsSetOf {α : Type} [DecidableEq α] (l : List α) : (jsSetOf l).Nodup :=
  nodup_jsSetOf_loop l [] (by simp)

theorem jsGet_jsSet_self {α : Type} (obj : List (String × α)) (k : String) (v : α) :
    jsGet (jsSet obj k v) k = some v := by
  induction obj with
  | nil => simp [jsSet, jsGet]
  | cons e rest ih =>
    by_cases h : e.1 = k
    · simp [jsSet, jsGet, h]
    · simp [jsSet, jsGet, h, ih]

theorem jsGet_jsSet_ne {α : Type} (obj : List (String × α)) (k k' : String) (v : α)
    (h : k' ≠ k) : jsGet (jsSet obj k v) k' = jsGet obj k' := by
  induction obj with
  | nil => simp [jsSet, jsGet, Ne.symm h]
  | cons e rest ih =>
    by_cases he : e.1 = k
    · simp [jsSet, jsGet, he, Ne.symm h]
    · simp [jsSet, jsGet, he, ih]

theorem invLookup_jsSet_self (m : List (String × List String)) (k : String)
    (v : List String) : invLookup (jsSet m k v) k = v := by
  simp [invLookup, jsGet_jsSet_self]

theorem invLookup_jsSet_ne (m : List (String × List String)) (k k' : String)
    (v : List String) (h : k' ≠ k) : invLookup (jsSet m k v) k' = invLookup m k' := by
  simp [invLookup, jsGet_jsSet_ne _ _ _ _ h]

theorem invLookup_pushAliases (p : String) (as : List String) :
    ∀ (acc : List (String × List String)) (b : String), as.Nodup →
      invLookup (as.foldl (fun acc aliasName =>
          jsSet acc aliasName ((jsGet acc aliasName).getD [] ++ [p])) acc) b
        = invLookup acc b ++ (if b ∈ as then [p] else []) := by
  induction as with
  | nil => intro acc b _; simp
  | cons a rest ih =>
    intro acc b h
    rw [List.foldl_cons, ih _ _ (List.Nodup.of_cons h)]
    by_cases hb : b = a
    · subst hb
      have hbr : b ∉ rest := (List.nodup_cons.mp h).1
      rw [if_neg hbr, if_pos (List.mem_cons_self _ _), invLookup_jsSet_self]
      simp [invLookup]
    · rw [invLookup_jsSet_ne _ _ _ _ hb]
      by_cases hbr : b ∈ rest
      · rw [if_pos hbr, if_pos (List.mem_cons_of_mem _ hbr)]
      · rw [if_neg hbr, if_neg (by simp [List.mem_cons, hb, hbr])]

theorem invLookup_inverseAliasesFold (b : String) :
    ∀ (cfg : List (String × StylePropEntry)) (acc : List (String × List String)),
      (∀ e ∈ cfg, (e.2.aliases.getD []).Nodup) →
      invLookup (cfg.foldl (fun acc e =>
          (e.2.aliases.getD []).foldl
            (fun acc aliasName => jsSet acc aliasName ((jsGet acc aliasName).getD [] ++ [e.1]))
            acc) acc) b
        = invLookup acc b
          ++ (cfg.filter (fun e => decide (b ∈ e.2.aliases.getD []))).map Prod.fst := by
  intro cfg
  induction cfg with
  | nil => intro acc _; simp
  | cons e cfg ih =>
    intro acc h
    rw [List.foldl_cons, ih _ (fun e' he' => h e' (List.mem_cons_of_mem _ he')),
      invLookup_pushAliases e.1 _ _ b (h e (List.mem_cons_self _ _)), List.filter_cons]
    by_cases hb : b ∈ e.2.aliases.getD []
    · simp [hb, List.append_assoc]
    · simp [hb]

end GetStyleProps

namespace GetStyleProps

theorem mem_interFold {α : Type} [DecidableEq α] (arrs : List (List α)) :
    ∀ (init : List α) (x : α),
      x ∈ arrs.foldl (fun intersection arr =>
          intersection.filter (fun elem => decide (elem ∈ arr))) init
        ↔ x ∈ init ∧ ∀ arr ∈ arrs, x ∈ arr := by
  induction arrs with
  | nil => intro init x; simp
  | cons a as ih =>
    intro init x
    rw [List.foldl_cons, ih]
    simp only [List.mem_filter, decide_eq_true_eq, List.mem_cons]
    constructor
    · rintro ⟨⟨hi, ha⟩, hall⟩
      refine ⟨hi, ?_⟩
      rintro arr (rfl | harr)
      · exact ha
      · exact hall arr harr
    · rintro ⟨hi, hall⟩
      exact ⟨⟨hi, hall a (Or.inl rfl)⟩, fun arr harr => hall arr (Or.inr harr)⟩

theorem nodup_interFold {α : Type} [DecidableEq α] (arrs : List (List α)) :
    ∀ init : List α, init.Nodup →
      (arrs.foldl (fun intersection arr =>
          intersection.filter (fun elem => decide (elem ∈ arr))) init).Nodup := by
  induction arrs with
  | nil => intro init h; simpa using h
  | cons a as ih =>
    intro init h
    rw [List.foldl_cons]
    exact ih _ (h.filter _)

theorem foldl_pushIf_eq {β : Type} (p : β → Prop) [DecidablePred p] (f : β → String) :
    ∀ (l : List β) (init : List String),
      l.foldl (fun acc x => if p x then acc ++ [f x] else acc) init
        = init ++ (l.filter (fun x => decide (p x))).map f := by
  intro l
  induction l with
  | nil => intro init; simp
  | cons x xs ih =>
    intro init
    rw [List.foldl_cons, ih, List.filter_cons]
    by_cases hp : p x
    · simp [hp, List.append_assoc]
    · simp [hp]

theorem typeMismatches_eq_filter (inp : GenInput) :
    typeMismatches inp
      = ((inverseAliases inp.stylePropConfig).filter (fun e =>
          decide ((getArrayIntersection
            (e.2.map (fun prop => cssLonghandPropertyType inp prop))).length = 0))).map
        Prod.fst := by
  have h := foldl_pushIf_eq
    (fun e : String × List String =>
      (getArrayIntersection (e.2.map (fun prop => cssLonghandPropertyType inp prop))).length = 0)
    Prod.fst (inverseAliases inp.stylePropConfig) []
  simpa [typeMismatches] using h

theorem typeMismatches_nil_iff (inp : GenInput) :
    typeMismatches inp = []
      ↔ ∀ e ∈ inverseAliases inp.stylePropConfig,
          (getArrayIntersection
            (e.2.map (fun prop => cssLonghandPropertyType inp prop))).length ≠ 0 := by
  rw [typeMismatches_eq_filter, List.map_eq_nil_iff, List.filter_eq_nil_iff]
  simp

theorem string_ne_of_length_ne {s t : String} (h : s.length ≠ t.length) : s ≠ t :=
  fun he => h (he ▸ rfl)

theorem getArrayIntersection_of_mem_nil {α : Type} [DecidableEq α] (arrs : List (List α))
    (h : [] ∈ arrs) : getArrayIntersection arrs = [] := by
  rw [List.eq_nil_iff_forall_not_mem]
  intro x hx
  have hx' : x ∈ arrs.foldl (fun intersection arr =>
      intersection.filter (fun elem => decide (elem ∈ arr))) (jsSetOf arrs.flatten) := hx
  exact absurd (((mem_interFold arrs _ x).mp hx').2 [] h) (List.not_mem_nil x)

theorem firstMissing_none_of_typeMismatches_nil (inp : GenInput)
    (h : typeMismatches inp = []) : firstMissingAliasProp inp = none := by
  cases hf : firstMissingAliasProp inp with
  | none => rfl
  | some p =>
    exfalso
    rw [firstMissingAliasProp] at hf
    have hpred := List.find?_some hf
    have hpmem := List.mem_of_find?_eq_some hf
    rcases List.mem_flatten.mp hpmem with ⟨l, hl, hpl⟩
    rcases List.mem_map.mp hl with ⟨e, he, rfl⟩
    apply (typeMismatches_nil_iff inp).mp h e he
    rw [List.length_eq_zero]
    apply getArrayIntersection_of_mem_nil
    have hempty : cssLonghandPropertyType inp p = [] := by
      rw [cssLonghandPropertyType, Option.isNone_iff_eq_none.mp hpred]
      rfl
    exact hempty ▸ List.mem_map_of_mem _ hpl

end GetStyleProps

namespace GetStyleProps

/-- C1 (amended): provided every property that carries aliases in
`stylePropConfig` is itself present in `cssLonghandProperties` (no
missing-property read, as holds for the shipped configuration), the
verification step fails — printing an error and exiting — if and only if
there is at least one alias collision or at least one alias with an empty
type intersection; whenever it exits, the exit code is `-1`, at least one
error was printed, and no file was opened or written; and under that
proviso there is no other failure path (no crash, and any non-exit run is
a completed run). Without the proviso the script has one more failure
path, the uncaught TypeError exhibited by
`generator_crash_counterexample`. -/
theorem generator_error_exit_iff (inp : GenInput)
    (hwf : firstMissingAliasProp inp = none) :
    ((runScript inp).1 ≠ ScriptOutcome.completed
      ↔ aliasCollisions inp ≠ [] ∨ typeMismatches inp ≠ [])
    ∧ (∀ code errs, (runScript inp).1 = ScriptOutcome.exited code errs →
        code = -1 ∧ errs ≠ [] ∧ (runScript inp).2 = [])
    ∧ (∀ prop, (runScript inp).1 ≠ ScriptOutcome.crashed prop) := by
  by_cases hc : (aliasCollisions inp).length ≠ 0 ∨ (typeMismatches inp).length ≠ 0
  · have hrun : runScript inp
        = (ScriptOutcome.exited (-1)
            ((if (aliasCollisions inp).length ≠ 0 then [aliasCollisionMessage inp] else [])
              ++ (if (typeMismatches inp).length ≠ 0 then [typeMismatchMessage inp] else [])),
           []) := by
      simp only [runScript, verifyAliases, hwf, if_pos hc]
    refine ⟨?_, ?_, ?_⟩
    · rw [hrun]
      constructor
      · intro _
        rcases hc with h | h
        · exact Or.inl fun hnil => h (by simp [hnil])
        · exact Or.inr fun hnil => h (by simp [hnil])
      · intro _
        simp
    · intro code errs heq
      rw [hrun] at heq
      simp only [ScriptOutcome.exited.injEq] at heq
      obtain ⟨h1, h2⟩ := heq
      refine ⟨h1.symm, ?_, by rw [hrun]⟩
      rw [← h2]
      rcases hc with h | h
      · simp [h]
      · simp [h]
    · intro prop
      rw [hrun]
      simp
  · push_neg at hc
    obtain ⟨h1, h2⟩ := hc
    have hc1 : aliasCollisions inp = [] := List.length_eq_zero.mp h1
    have hc2 : typeMismatches inp = [] := List.length_eq_zero.mp h2
    have hrun : runScript inp = (ScriptOutcome.completed, successTrace inp) := by
      simp only [runScript, verifyAliases, hwf, if_neg, h1, h2]
      simp [successTrace]
    refine ⟨?_, ?_, ?_⟩
    · rw [hrun]; simp [hc1, hc2]
    · intro code errs heq
      rw [hrun] at heq
      simp at heq
    · intro prop
      rw [hrun]
      simp

/-- Counterexample to C1 as stated: on a configuration whose
`stylePropConfig` references a property missing from
`cssLonghandProperties`, the script neither completes nor reaches the
curated `process.exit(-1)` branch — it dies on the uncaught TypeError of
the missing read (no curated error printed, no file touched). The claimed
"print an error and exit with -1" equivalence and "no other failure path"
therefore fail without the well-formedness proviso. -/
theorem generator_crash_counterexample :
    (runScript crashInput).1 = ScriptOutcome.crashed "rowGpa"
    ∧ (runScript crashInput).1 ≠ ScriptOutcome.completed
    ∧ (∀ code errs, (runScript crashInput).1 ≠ ScriptOutcome.exited code errs)
    ∧ (runScript crashInput).2 = [] := by
  have h : (runScript crashInput).1 = ScriptOutcome.crashed "rowGpa" := by decide
  refine ⟨h, ?_, ?_, by decide⟩
  · rw [h]
    simp
  · intro code errs
    rw [h]
    simp

/-- Witness for C1 (amended) at the sample input, which has no
missing-property read. -/
theorem generator_error_exit_iff_witness :
    firstMissingAliasProp sampleInput = none
    ∧ ((runScript sampleInput).1 ≠ ScriptOutcome.completed
        ↔ aliasCollisions sampleInput ≠ [] ∨ typeMismatches sampleInput ≠ []) :=
  ⟨by decide, (generator_error_exit_iff sampleInput (by decide)).1⟩

/-- C2: whenever alias verification succeeds, the script opens the style
file, writes the CSS custom-property scaffolding, closes it, then opens
the types file, writes the generated TypeScript definitions, and closes
it — in that order, and nothing else. -/
theorem generator_success_writes_both (inp : GenInput)
    (h : aliasCollisions inp = [] ∧ typeMismatches inp = []) :
    (runScript inp).1 = ScriptOutcome.completed
    ∧ (runScript inp).2
        = [FsEvent.openFile inp.styleFile,
           FsEvent.writeContent inp.styleFile (writeCSSMediaVars inp inp.modifiers),
           FsEvent.closeFile inp.styleFile,
           FsEvent.openFile inp.typesFile,
           FsEvent.writeContent inp.typesFile (writeTSProperties inp),
           FsEvent.closeFile inp.typesFile] := by
  have hwf : firstMissingAliasProp inp = none :=
    firstMissing_none_of_typeMismatches_nil inp h.2
  have hc : ¬((aliasCollisions inp).length ≠ 0 ∨ (typeMismatches inp).length ≠ 0) := by
    simp [h.1, h.2]
  constructor <;> simp only [runScript, verifyAliases, hwf, if_neg hc]

/-- Witness for C2: the sample input passes verification and the script
completes on it. -/
theorem generator_success_writes_both_witness :
    (aliasCollisions sampleInput = [] ∧ typeMismatches sampleInput = [])
    ∧ (runScript sampleInput).1 = ScriptOutcome.completed :=
  ⟨⟨by decide, by decide⟩,
    (generator_success_writes_both sampleInput ⟨by decide, by decide⟩).1⟩

/-- C8: the generator is a pure function of its input: running it twice on
the same configuration produces identical style-file text, identical
types-file text and an identical event trace. -/
theorem generator_deterministic (inp1 inp2 : GenInput) (h : inp1 = inp2) :
    writeCSSMediaVars inp1 inp1.modifiers = writeCSSMediaVars inp2 inp2.modifiers
    ∧ writeTSProperties inp1 = writeTSProperties inp2
    ∧ runScript inp1 = runScript inp2 := by
  subst h
  exact ⟨rfl, rfl, rfl⟩

/-- Witness for C8 at the sample input. -/
theorem generator_deterministic_witness :
    sampleInput = sampleInput
    ∧ writeTSProperties sampleInput = writeTSProperties sampleInput :=
  ⟨rfl, (generator_deterministic sampleInput sampleInput rfl).2.1⟩

/-- C9 (amended): the one-shot script always terminates: every run either
completes, or takes the curated error exit with code `-1`, or dies on the
uncaught TypeError thrown when `verifyAliases` reads the type of a
property missing from `cssLonghandProperties` — there is no divergence.
(All the helper loops are embedded as total structural recursions; in
particular the delete-while-iterating loop of `getArrayIntersection`
visits each element of the iterated set at most once.) -/
theorem generator_terminates (inp : GenInput) :
    (runScript inp).1 = ScriptOutcome.completed
    ∨ (∃ errs, (runScript inp).1 = ScriptOutcome.exited (-1) errs)
    ∨ (∃ prop, (runScript inp).1 = ScriptOutcome.crashed prop) := by
  cases hf : firstMissingAliasProp inp with
  | some p =>
    right; right
    simp only [runScript, verifyAliases, hf]
    exact ⟨p, rfl⟩
  | none =>
    by_cases hc : (aliasCollisions inp).length ≠ 0 ∨ (typeMismatches inp).length ≠ 0
    · right; left
      simp only [runScript, verifyAliases, hf, if_pos hc]
      exact ⟨_, rfl⟩
    · left
      simp only [runScript, verifyAliases, hf, if_neg hc]

/-- Counterexample to C9 as stated: on the typo'd configuration the run
neither completes nor takes the `-1` error exit — the claimed
completion-or-error-exit dichotomy fails on the TypeError path. -/
theorem generator_dichotomy_counterexample :
    (runScript crashInput).1 ≠ ScriptOutcome.completed
    ∧ ∀ errs, (runScript crashInput).1 ≠ ScriptOutcome.exited (-1) errs := by
  have h : (runScript crashInput).1 = ScriptOutcome.crashed "rowGpa" := by decide
  constructor
  · rw [h]
    simp
  · intro errs
    rw [h]
    simp

end GetStyleProps

namespace GetStyleProps

/-- C3: `inverseAliases` is the inverse of the configured alias relation —
`inverseAliases[a]` is exactly the list of properties whose entry lists the
alias `a`, in `stylePropConfig` enumeration order (so `p ∈ inverseAliases[a]`
iff `a ∈ stylePropConfig[p].aliases`); and `allAliases` is the
duplicate-free list of all aliases appearing in any entry. The hypothesis
says no single entry lists the same alias twice, as holds for any JS config
object one would write. -/
theorem inverseAliases_inverts_config (cfg : List (String × StylePropEntry))
    (ha : ∀ e ∈ cfg, (e.2.aliases.getD []).Nodup) :
    (∀ a, invLookup (inverseAliases cfg) a
        = (cfg.filter (fun e => decide (a ∈ e.2.aliases.getD []))).map Prod.fst)
    ∧ (∀ a p, p ∈ invLookup (inverseAliases cfg) a
        ↔ ∃ e ∈ cfg, e.1 = p ∧ a ∈ e.2.aliases.getD [])
    ∧ (allAliases cfg).Nodup
    ∧ (∀ a, a ∈ allAliases cfg ↔ ∃ e ∈ cfg, a ∈ e.2.aliases.getD []) := by
  have hmain : ∀ a, invLookup (inverseAliases cfg) a
      = (cfg.filter (fun e => decide (a ∈ e.2.aliases.getD []))).map Prod.fst := by
    intro a
    have h := invLookup_inverseAliasesFold a cfg [] ha
    simpa [inverseAliases, invLookup, jsGet] using h
  refine ⟨hmain, ?_, nodup_jsSetOf _, ?_⟩
  · intro a p
    rw [hmain a]
    simp only [List.mem_map, List.mem_filter, decide_eq_true_eq]
    constructor
    · rintro ⟨e, ⟨he, hae⟩, rfl⟩
      exact ⟨e, he, rfl, hae⟩
    · rintro ⟨e, he, rfl, hae⟩
      exact ⟨e, ⟨he, hae⟩, rfl⟩
  · intro a
    rw [allAliases, mem_jsSetOf, List.mem_flatten]
    constructor
    · rintro ⟨l, hl, hal⟩
      rcases List.mem_map.mp hl with ⟨e, he, rfl⟩
      exact ⟨e, he, hal⟩
    · rintro ⟨e, he, hae⟩
      exact ⟨e.2.aliases.getD [], List.mem_map_of_mem _ he, hae⟩

/-- Witness for C3 at the sample configuration: the alias lists are
duplicate-free and `inverseAliases["gap"]` is the filtered property list. -/
theorem inverseAliases_inverts_config_witness :
    (∀ e ∈ sampleInput.stylePropConfig, (e.2.aliases.getD []).Nodup)
    ∧ invLookup (inverseAliases sampleInput.stylePropConfig) "gap"
        = ((sampleInput.stylePropConfig.filter
            (fun e => decide ("gap" ∈ e.2.aliases.getD []))).map Prod.fst) :=
  ⟨by decide, (inverseAliases_inverts_config sampleInput.stylePropConfig (by decide)).1 "gap"⟩

/-- C7: `getArrayIntersection` returns a duplicate-free list whose members
are exactly the elements present in every input array; called with no
arrays at all it returns the empty array (the right-hand side of the
membership characterization is then false for every element). -/
theorem getArrayIntersection_exact {α : Type} [DecidableEq α] (arrs : List (List α)) :
    (getArrayIntersection arrs).Nodup
    ∧ ∀ x, x ∈ getArrayIntersection arrs ↔ arrs ≠ [] ∧ ∀ arr ∈ arrs, x ∈ arr := by
  constructor
  · exact nodup_interFold arrs _ (nodup_jsSetOf _)
  · intro x
    show x ∈ arrs.foldl _ (jsSetOf arrs.flatten) ↔ _
    rw [mem_interFold, mem_jsSetOf, List.mem_flatten]
    constructor
    · rintro ⟨⟨l, hl, _⟩, hall⟩
      refine ⟨?_, hall⟩
      rintro rfl
      exact absurd hl (List.not_mem_nil _)
    · rintro ⟨hne, hall⟩
      rcases List.exists_mem_of_ne_nil arrs hne with ⟨a, ha⟩
      exact ⟨⟨a, ha, hall a ha⟩, hall⟩

/-- C4: under the precondition established by `verifyAliases` (no type
mismatches), `createMinimumCommonUnionForAlias` never returns `never` for
the property list of any alias of `inverseAliases`: it returns either a
reference to the first constituent property's type, or an `Exclude<...>`
expression over that first property's type. -/
theorem aliasType_never_unreachable (inp : GenInput) (a : String) (props : List String)
    (hmem : (a, props) ∈ inverseAliases inp.stylePropConfig)
    (hver : typeMismatches inp = []) :
    createMinimumCommonUnionForAlias inp props ≠ "never"
    ∧ (createMinimumCommonUnionForAlias inp props
        = "LonghandStyleProps['" ++ props.headD "" ++ "']"
      ∨ ∃ excluded, createMinimumCommonUnionForAlias inp props
          = "Exclude<\n    LonghandStyleProps['" ++ props.headD "" ++ "'],\n    "
            ++ generateTSPickList excluded 0 ++ "\n  >") := by
  have hlen : (getArrayIntersection
      (props.map (fun prop => cssLonghandPropertyType inp prop))).length ≠ 0 :=
    (typeMismatches_nil_iff inp).mp hver (a, props) hmem
  by_cases heq : arraysAreEqualSets (props.map fun prop => cssLonghandPropertyType inp prop)
  · have hres : createMinimumCommonUnionForAlias inp props
        = "LonghandStyleProps['" ++ props.headD "" ++ "']" := by
      simp only [createMinimumCommonUnionForAlias, if_pos heq]
    rw [hres]
    refine ⟨?_, Or.inl rfl⟩
    apply string_ne_of_length_ne
    rw [String.length_append, String.length_append]
    have h1 : ("LonghandStyleProps['" : String).length = 20 := by decide
    have h2 : ("']" : String).length = 2 := by decide
    have h3 : ("never" : String).length = 5 := by decide
    omega
  · have hres : createMinimumCommonUnionForAlias inp props
        = "Exclude<\n    LonghandStyleProps['" ++ props.headD "" ++ "'],\n    "
          ++ generateTSPickList
              (getArrayIntersection
                [(props.map fun prop => cssLonghandPropertyType inp prop).headD [],
                 getArrayDifference
                   [(props.map fun prop => cssLonghandPropertyType inp prop).flatten,
                    getArrayIntersection
                      (props.map fun prop => cssLonghandPropertyType inp prop)]]) 0
          ++ "\n  >" := by
      simp only [createMinimumCommonUnionForAlias, if_neg heq, if_neg hlen]
    rw [hres]
    refine ⟨?_, Or.inr ⟨_, rfl⟩⟩
    apply string_ne_of_length_ne
    simp only [String.length_append]
    have h1 : ("Exclude<\n    LonghandStyleProps['" : String).length = 33 := by decide
    have h3 : ("never" : String).length = 5 := by decide
    omega

/-- Witness for C4 at the sample input: the `gap` alias of the sample
configuration never receives type `never`. -/
theorem aliasType_never_unreachable_witness :
    (("gap", ["rowGap", "columnGap"]) ∈ inverseAliases sampleInput.stylePropConfig
      ∧ typeMismatches sampleInput = [])
    ∧ createMinimumCommonUnionForAlias sampleInput ["rowGap", "columnGap"] ≠ "never" :=
  ⟨⟨by decide, by decide⟩,
    (aliasType_never_unreachable sampleInput "gap" ["rowGap", "columnGap"]
      (by decide) (by decide)).1⟩

end GetStyleProps

namespace GetStyleProps

/-- C5: the style file contains exactly one `@media screen and
(min-width: ...)` rule per breakpoint except the first, in breakpoint-table
order, each setting `--<namespace><key>` to a space inside a `.Box` rule;
and the default `.Box` block sets each of those same non-first breakpoint
custom properties to `initial`. -/
theorem style_media_rules_per_breakpoint (inp : GenInput) :
    (mediaQueryRules inp).length = (breakpoints inp).length - 1
    ∧ (∀ i bp, (breakpoints inp)[i + 1]? = some bp →
        (mediaQueryRules inp)[i]?
          = some ("@media screen and (min-width: " ++ bp.value ++ ") \x7b .Box \x7b --"
              ++ inp.cssCustomPropertyNamespace ++ bp.key ++ ": ; \x7d \x7d"))
    ∧ (mediaVarInitialLines inp).length = (breakpoints inp).length - 1
    ∧ (∀ i bp, (breakpoints inp)[i + 1]? = some bp →
        (mediaVarInitialLines inp)[i]?
          = some ("--" ++ inp.cssCustomPropertyNamespace ++ bp.key ++ ": initial;"))
    ∧ (∃ pre post, writeCSSMediaVars inp inp.modifiers
        = pre ++ mediaQueries inp ++ post)
    ∧ (∃ post, cssMediaVarDefaults inp inp.modifiers
        = String.intercalate "\n" (mediaVarInitialLines inp) ++ post) := by
  refine ⟨?_, ?_, ?_, ?_, ?_, ?_⟩
  · simp [mediaQueryRules, breakpointsWithoutXs]
  · intro i bp h
    simp only [mediaQueryRules, breakpointsWithoutXs, List.getElem?_map, List.getElem?_drop]
    rw [Nat.add_comm 1 i, h]
    rfl
  · simp [mediaVarInitialLines, breakpointsWithoutXs]
  · intro i bp h
    simp only [mediaVarInitialLines, breakpointsWithoutXs, List.getElem?_map,
      List.getElem?_drop]
    rw [Nat.add_comm 1 i, h]
    rfl
  · refine ⟨"/* THIS FILE IS AUTO GENERATED, DO NOT TOUCH */\n" ++ ".Box \x7b\n"
      ++ defaultCSSProperties inp ++ "\n" ++ cssMediaVarDefaults inp inp.modifiers
      ++ "\n\x7d\n\n", "\n\n" ++ selectorsEnabled inp inp.modifiers, ?_⟩
    simp [writeCSSMediaVars, String.append_assoc]
  · refine ⟨"\n\n" ++ String.intercalate "\n\n"
      (inp.modifiers.map (fun m => String.intercalate "\n" (modifierInitialLines inp m.2))), ?_⟩
    simp [cssMediaVarDefaults, String.append_assoc]

/-- C6: for every configured modifier, the style file contains a
`.Box<selector>` rule whose lines set, for each breakpoint key including
the unnamed base key, `--<namespace><key><modifierName>` to the empty
value for the base key and to `var(--<namespace><key>)` for every other
breakpoint key. -/
theorem style_modifier_selector_rules (inp : GenInput) (sel modifierName : String)
    (hm : (sel, modifierName) ∈ inp.modifiers) :
    modifierSelectorRule inp (sel, modifierName)
        ∈ inp.modifiers.map (fun m => modifierSelectorRule inp m)
    ∧ modifierSelectorRule inp (sel, modifierName)
        = ".Box" ++ sel ++ " \x7b\n"
          ++ String.intercalate "\n" (modifierSelectorLines inp modifierName) ++ "\n\x7d"
    ∧ (modifierSelectorLines inp modifierName).length = (breakpointsWithBaseXs inp).length
    ∧ (∀ (i : Nat) (bp : Breakpoint), (breakpointsWithBaseXs inp)[i]? = some bp →
        (modifierSelectorLines inp modifierName)[i]?
          = some ("--" ++ inp.cssCustomPropertyNamespace ++ bp.key ++ modifierName ++ ": "
              ++ (if bp.key = baseBreakpointKey then ""
                  else "var(--" ++ inp.cssCustomPropertyNamespace ++ bp.key ++ ")")
              ++ ";"))
    ∧ (∃ v, (breakpointsWithBaseXs inp)[0]? = some { key := baseBreakpointKey, value := v })
    ∧ (∃ pre, writeCSSMediaVars inp inp.modifiers
        = pre ++ selectorsEnabled inp inp.modifiers) := by
  refine ⟨List.mem_map_of_mem _ hm, rfl, ?_, ?_, ?_, ?_⟩
  · simp [modifierSelectorLines]
  · intro i bp h
    simp only [modifierSelectorLines, List.getElem?_map]
    rw [h]
    rfl
  · exact ⟨((breakpoints inp).headD { key := "", value := "" }).value, by
      simp [breakpointsWithBaseXs]⟩
  · refine ⟨"/* THIS FILE IS AUTO GENERATED, DO NOT TOUCH */\n" ++ ".Box \x7b\n"
      ++ defaultCSSProperties inp ++ "\n" ++ cssMediaVarDefaults inp inp.modifiers
      ++ "\n\x7d\n\n" ++ mediaQueries inp ++ "\n\n", ?_⟩
    simp [writeCSSMediaVars, String.append_assoc]

/-- Witness for C6 at the sample input: the `:hover` modifier's rule and
its base-key line. -/
theorem style_modifier_selector_rules_witness :
    ((":hover", "_hover") ∈ sampleInput.modifiers)
    ∧ modifierSelectorRule sampleInput (":hover", "_hover")
        ∈ sampleInput.modifiers.map (fun m => modifierSelectorRule sampleInput m) :=
  ⟨by decide,
    (style_modifier_selector_rules sampleInput ":hover" "_hover" (by decide)).1⟩

end GetStyleProps

namespace Toast

/-- C10: the Toast auto-dismiss timeout is the given duration whenever it
is truthy; `DEFAULT_TOAST_DURATION_WITH_ACTION` (10000 ms) when an action
is provided and the duration is not truthy; and `DEFAULT_TOAST_DURATION`
(5000 ms) otherwise. The persistence warning is logged exactly when an
action is provided together with a truthy duration below 10000 ms — in
which case the given duration is still the one used (first conjunct). -/
theorem toast_timeout_duration (action : Bool) (duration : Option Nat) :
    (toastTimer action duration).timeoutDuration
      = (if durationTruthy duration then duration.getD 0
         else if action then DEFAULT_TOAST_DURATION_WITH_ACTION else DEFAULT_TOAST_DURATION)
    ∧ (toastTimer action duration).warned
      = (action && durationTruthy duration
          && decide (duration.getD 0 < DEFAULT_TOAST_DURATION_WITH_ACTION)) := by
  cases action <;> rcases duration with _ | n
  · simp [toastTimer, durationTruthy]
  · by_cases hn : n = 0
    · simp [toastTimer, durationTruthy, hn]
    · by_cases hlt : n < DEFAULT_TOAST_DURATION_WITH_ACTION <;>
        simp [toastTimer, durationTruthy, hn, hlt]
  · simp [toastTimer, durationTruthy]
  · by_cases hn : n = 0
    · simp [toastTimer, durationTruthy, hn]
    · by_cases hlt : n < DEFAULT_TOAST_DURATION_WITH_ACTION <;>
        simp [toastTimer, durationTruthy, hn, hlt]

end Toast
